import Mathlib

/-!
Shallow embedding of the Moltbot gateway-management module: process
supervision (`ensureMoltbotGateway`), best-effort durable-volume mounting
(`mountR2Storage`) and one-way state sync (`syncToR2`).  External
collaborators (shell execution, the process registry, the volume mounter)
are modelled by an oracle indexed by call number; every call the module
makes is recorded in an effect trace so that frame properties ("no launch
attempt", "no filesystem mutation") are statable.
-/

deriving instance DecidableEq for Except

/-- Result of a shell command: captured stdout and stderr. -/
structure ExecResult where
  stdout : String
  stderr : String
deriving DecidableEq

/-- A process descriptor as reported by the process registry. -/
structure Process where
  pid : Nat
  command : Option String
  args : Option (List String)
  status : String
deriving DecidableEq

/-- The pid/status pair returned by `findExistingMoltbotProcess`. -/
structure FoundProcess where
  pid : Nat
  status : String
deriving DecidableEq

/-- The configuration consumed by the module.  String-valued environment
bindings are `Option String` (`none` models an absent binding); the R2
bucket binding is an opaque handle, present or absent. -/
structure MoltbotEnv where
  ANTHROPIC_API_KEY : Option String
  OPENAI_API_KEY : Option String
  MOLTBOT_GATEWAY_TOKEN : Option String
  R2_BUCKET_NAME : Option String
  MOLTBOT_BUCKET : Option String
deriving DecidableEq

/-- JavaScript truthiness of an optional string: present and non-empty. -/
def truthy : Option String → Bool
  | some s => !s.isEmpty
  | none => false

/-- Effects the module can request from its collaborators. -/
inductive Eff where
  | listProcesses : Eff
  | exec : String → Eff
  | mountBucket : String → String → Bool → Eff
  | startProcess : List String → List (String × String) → Option String → Eff
  | sleep : Nat → Eff
deriving DecidableEq

/-- Collaborator responses.  `err` models a thrown exception. -/
inductive Resp where
  | processes : List Process → Resp
  | execOut : String → String → Resp
  | proc : Process → Resp
  | unit : Resp
  | err : String → Resp
deriving DecidableEq

/-- The environment's behaviour: the response to the n-th collaborator call. -/
def Oracle : Type := Nat → Resp

/-- Computation monad: reads the oracle, threads the call counter and the
effect trace, and can fail with a thrown-exception message. -/
def M (α : Type) : Type := Oracle → Nat → List Eff → Except String α × Nat × List Eff

def M.pure (a : α) : M α := fun _ n tr => (.ok a, n, tr)

def M.bind (x : M α) (f : α → M β) : M β := fun ora n tr =>
  match x ora n tr with
  | (.ok a, n', tr') => f a ora n' tr'
  | (.error e, n', tr') => (.error e, n', tr')

instance : Monad M where
  pure := M.pure
  bind := M.bind

/-- Throw an exception carrying message `e`. -/
def throwM (e : String) : M α := fun _ n tr => (.error e, n, tr)

/-- A try/catch block: run `x`; on a thrown exception, run the handler. -/
def tryCatchM (x : M α) (h : String → M α) : M α := fun ora n tr =>
  match x ora n tr with
  | (.ok a, n', tr') => (.ok a, n', tr')
  | (.error e, n', tr') => h e ora n' tr'

/-- Issue one collaborator call: record the effect, consume one oracle
response; an `err` response is a thrown exception. -/
def callEff (e : Eff) : M Resp := fun ora n tr =>
  match ora n with
  | .err m => (.error m, n + 1, tr ++ [e])
  | r => (.ok r, n + 1, tr ++ [e])

def sandboxListProcesses : M (List Process) := do
  let r ← callEff .listProcesses
  match r with
  | .processes ps => pure ps
  | _ => throwM "unexpected response"

def sandboxExec (cmd : String) : M ExecResult := do
  let r ← callEff (.exec cmd)
  match r with
  | .execOut o e => pure ⟨o, e⟩
  | _ => throwM "unexpected response"

def sandboxMountBucket (bucket path : String) (readOnly : Bool) : M Unit := do
  let _ ← callEff (.mountBucket bucket path readOnly)
  pure ()

def sandboxStartProcess (command : List String) (penv : List (String × String))
    (workingDirectory : Option String) : M Process := do
  let r ← callEff (.startProcess command penv workingDirectory)
  match r with
  | .proc p => pure p
  | _ => throwM "unexpected response"

/-- The settle delay (`setTimeout`): recorded in the trace, never fails,
consumes no collaborator response. -/
def sleepM (ms : Nat) : M Unit := fun _ n tr => (.ok (), n, tr ++ [.sleep ms])

/-- Substring test on character lists (JavaScript `String.includes`). -/
def containsSub (pat : List Char) : List Char → Bool
  | [] => pat.isEmpty
  | c :: rest => List.isPrefixOf pat (c :: rest) || containsSub pat rest

/-- JavaScript `s.includes(pat)`. -/
def strIncludes (s pat : String) : Bool := containsSub pat.toList s.toList

/-- The gateway-signature predicate used by `findExistingMoltbotProcess`:
command contains the launcher script name or the binary name, or some
argument mentions the binary name. -/
def findMatch (p : Process) : Bool :=
  (match p.command with
   | some c => strIncludes c "start-openclaw.sh" || strIncludes c "openclaw"
   | none => false)
  || (match p.args with
      | some as => as.any fun a => strIncludes a "openclaw"
      | none => false)

/-- Find an existing Moltbot gateway process: list processes, take the first
one matching the gateway signature; any listing failure is caught and
yields `none`. -/
def findExistingMoltbotProcess : M (Option FoundProcess) :=
  tryCatchM
    (do
      let processes ← sandboxListProcesses
      match processes.find? findMatch with
      | some p => pure (some ⟨p.pid, p.status⟩)
      | none => pure none)
    (fun _ => pure none)

/-- Mount R2 bucket for persistent storage: skip (returning `false`) when
configuration is missing; otherwise create the mount directory, set its
permissions, mount the bucket read-write and lay compatibility symlinks,
converting any thrown exception into a `false` return. -/
def mountR2Storage (env : MoltbotEnv) : M Bool :=
  if !truthy env.R2_BUCKET_NAME || !env.MOLTBOT_BUCKET.isSome then
    pure false
  else
    tryCatchM
      (do
        let _ ← sandboxExec "mkdir -p /data/moltbot"
        let _ ← sandboxExec "chmod 777 /data/moltbot"
        sandboxMountBucket (env.MOLTBOT_BUCKET.getD "") "/data/moltbot" false
        let _ ← sandboxExec "mkdir -p /data/moltbot/openclaw"
        let _ ← sandboxExec "ln -sf /data/moltbot/openclaw /root/.openclaw"
        let _ ← sandboxExec "ln -sf /data/moltbot/openclaw /root/clawd/data"
        pure true)
      (fun _ => pure false)

def restrictedPath : String := "/usr/local/bin:/usr/bin:/bin"

def gatewayCommand : List String := ["/usr/local/bin/start-openclaw.sh"]

/-- Build the environment for the gateway process: fixed production-mode
base, then each credential only when its configured value is truthy. -/
def buildOpenclawEnv (env : MoltbotEnv) : List (String × String) :=
  [("NODE_ENV", "production"), ("PATH", restrictedPath), ("HOME", "/root")]
  ++ (if truthy env.ANTHROPIC_API_KEY then
        [("ANTHROPIC_API_KEY", env.ANTHROPIC_API_KEY.getD "")] else [])
  ++ (if truthy env.OPENAI_API_KEY then
        [("OPENAI_API_KEY", env.OPENAI_API_KEY.getD "")] else [])
  ++ (if truthy env.MOLTBOT_GATEWAY_TOKEN then
        [("OPENCLAW_GATEWAY_TOKEN", env.MOLTBOT_GATEWAY_TOKEN.getD "")] else [])

/-- The early-return / verification test on a found process. -/
def gatewayRunning : Option FoundProcess → Bool
  | some f => f.status == "running"
  | none => false

/-- Ensure the Moltbot gateway is running: check first; when not already
running, mount storage best-effort, launch the gateway with the assembled
environment, wait the settle delay, re-check, and fail when the gateway
cannot be confirmed running; the catch block logs and rethrows. -/
def ensureMoltbotGateway (env : MoltbotEnv) : M Unit := do
  let existing ← findExistingMoltbotProcess
  if gatewayRunning existing then
    pure ()
  else
    tryCatchM
      (do
        let _r2Mounted ← mountR2Storage env
        let _proc ← sandboxStartProcess gatewayCommand (buildOpenclawEnv env)
          (some "/root/clawd")
        sleepM 2000
        let verify ← findExistingMoltbotProcess
        if gatewayRunning verify then pure ()
        else throwM "Gateway failed to start")
      (fun e => throwM e)

/-- The structured result of a sync invocation. -/
structure SyncOutcome where
  success : Bool
  error : Option String
  details : Option String
  lastSync : Option String
deriving DecidableEq

def mountCheckCmd : String := "mount | grep /data/moltbot || echo \"not mounted\""

def mkdirLocalCmd : String := "mkdir -p /root/.openclaw"

def mkdirDurableCmd : String := "mkdir -p /data/moltbot/openclaw"

def rsyncCmd : String := "rsync -av --delete /root/.openclaw/ /data/moltbot/openclaw/ 2>&1"

def syncHeader : String := "sending incremental file list"

/-- The copy step of `syncToR2`: ensure both directories exist, run the
mirrored copy, and interpret its diagnostic output. -/
def syncCopyStep (nowIso : String) : M SyncOutcome := do
  let _ ← sandboxExec mkdirLocalCmd
  let _ ← sandboxExec mkdirDurableCmd
  let syncResult ← sandboxExec rsyncCmd
  if !syncResult.stderr.isEmpty && !strIncludes syncResult.stderr syncHeader then
    pure ⟨false, some "Sync failed", some syncResult.stderr, none⟩
  else
    pure ⟨true, none, none, some nowIso⟩

/-- Sync Moltbot data to R2: refuse when unconfigured, remount on demand
when the mount is absent, then perform the mirrored copy; any thrown
exception becomes a failure outcome. -/
def syncToR2 (env : MoltbotEnv) (nowIso : String) : M SyncOutcome :=
  tryCatchM
    (do
      if !truthy env.R2_BUCKET_NAME then
        pure ⟨false, some "R2 storage is not configured",
          some "Missing R2_BUCKET_NAME environment variable", none⟩
      else do
        let mountCheck ← sandboxExec mountCheckCmd
        if strIncludes mountCheck.stdout "not mounted" then do
          let mounted ← mountR2Storage env
          if !mounted then
            pure ⟨false, some "R2 storage not mounted",
              some "Failed to mount R2 bucket", none⟩
          else
            syncCopyStep nowIso
        else
          syncCopyStep nowIso)
    (fun e => pure ⟨false, some "Sync failed", some e, none⟩)

/-- Modelled from the spec: the delete-on-destination one-way mirror that
the external copy primitive (rsync with its delete flag) performs on the
file sets — the destination's file set becomes exactly the source's.  The
copy primitive itself is an external collaborator, not part of the source. -/
def mirrorCopy (localFiles _durableFiles : List (String × String)) :
    List (String × String) := localFiles

/-! Run lemmas: how each building block evaluates on an oracle, counter and
trace. -/

theorem M.run_bind (x : M α) (f : α → M β) (ora : Oracle) (n : Nat) (tr : List Eff) :
    (x >>= f) ora n tr =
      match x ora n tr with
      | (.ok a, n', tr') => f a ora n' tr'
      | (.error e, n', tr') => (.error e, n', tr') := rfl

theorem M.run_pure (a : α) (ora : Oracle) (n : Nat) (tr : List Eff) :
    (Pure.pure a : M α) ora n tr = (.ok a, n, tr) := rfl

theorem callEff_run (e : Eff) (ora : Oracle) (n : Nat) (tr : List Eff) :
    callEff e ora n tr =
      (match ora n with
       | .err m => .error m
       | r => .ok r, n + 1, tr ++ [e]) := by
  unfold callEff
  cases ora n <;> rfl

/-- What the first (or the re-run) Check observes: the registry's answer at
call index `i`, reduced to the first matching process, `none` on failure. -/
def firstCheckResult (ora : Oracle) (i : Nat) : Option FoundProcess :=
  match ora i with
  | .processes ps =>
    match ps.find? findMatch with
    | some p => some ⟨p.pid, p.status⟩
    | none => none
  | _ => none

theorem findExistingMoltbotProcess_run (ora : Oracle) (n : Nat) (tr : List Eff) :
    findExistingMoltbotProcess ora n tr =
      (.ok (firstCheckResult ora n), n + 1, tr ++ [.listProcesses]) := by
  unfold findExistingMoltbotProcess sandboxListProcesses firstCheckResult
  cases h : ora n
  case processes ps =>
    rcases hf : ps.find? findMatch with _ | p <;>
      simp [tryCatchM, throwM, M.run_bind, M.run_pure, callEff_run, h, hf]
  all_goals
    simp [tryCatchM, throwM, M.run_bind, M.run_pure, callEff_run, h]


/-- The outcome of one `exec` call as a function of the oracle's response. -/
def execStep : Resp → Except String ExecResult
  | .execOut o e => .ok ⟨o, e⟩
  | .err m => .error m
  | _ => .error "unexpected response"

/-- The outcome of one `mountBucket` call as a function of the response. -/
def mountStep : Resp → Except String Unit
  | .err m => .error m
  | _ => .ok ()

/-- The outcome of one `startProcess` call as a function of the response. -/
def startStep : Resp → Except String Process
  | .proc p => .ok p
  | .err m => .error m
  | _ => .error "unexpected response"

theorem sandboxExec_run (cmd : String) (ora : Oracle) (n : Nat) (tr : List Eff) :
    sandboxExec cmd ora n tr = (execStep (ora n), n + 1, tr ++ [.exec cmd]) := by
  unfold sandboxExec execStep
  cases h : ora n <;> simp [M.run_bind, M.run_pure, callEff_run, throwM, h]

theorem sandboxMountBucket_run (b p : String) (ro : Bool) (ora : Oracle) (n : Nat)
    (tr : List Eff) :
    sandboxMountBucket b p ro ora n tr =
      (mountStep (ora n), n + 1, tr ++ [.mountBucket b p ro]) := by
  unfold sandboxMountBucket mountStep
  cases h : ora n <;> simp [M.run_bind, M.run_pure, callEff_run, throwM, h]

theorem sandboxStartProcess_run (c : List String) (penv : List (String × String))
    (wd : Option String) (ora : Oracle) (n : Nat) (tr : List Eff) :
    sandboxStartProcess c penv wd ora n tr =
      (startStep (ora n), n + 1, tr ++ [.startProcess c penv wd]) := by
  unfold sandboxStartProcess startStep
  cases h : ora n <;> simp [M.run_bind, M.run_pure, callEff_run, throwM, h]

/-- The six collaborator calls the configured mount path can make, in order. -/
def mountEffects (env : MoltbotEnv) : List Eff :=
  [.exec "mkdir -p /data/moltbot", .exec "chmod 777 /data/moltbot",
   .mountBucket (env.MOLTBOT_BUCKET.getD "") "/data/moltbot" false,
   .exec "mkdir -p /data/moltbot/openclaw",
   .exec "ln -sf /data/moltbot/openclaw /root/.openclaw",
   .exec "ln -sf /data/moltbot/openclaw /root/clawd/data"]

/-- Full characterisation of a `mountR2Storage` run: skip when unconfigured;
otherwise walk the six calls, stopping (with a `false` return) right after
the first failing one. -/
theorem mountR2Storage_run (env : MoltbotEnv) (ora : Oracle) (n : Nat) (tr : List Eff) :
    mountR2Storage env ora n tr =
      if !truthy env.R2_BUCKET_NAME || !env.MOLTBOT_BUCKET.isSome then
        (.ok false, n, tr)
      else
        match execStep (ora n) with
        | .error _ => (.ok false, n + 1, tr ++ (mountEffects env).take 1)
        | .ok _ =>
          match execStep (ora (n + 1)) with
          | .error _ => (.ok false, n + 2, tr ++ (mountEffects env).take 2)
          | .ok _ =>
            match mountStep (ora (n + 2)) with
            | .error _ => (.ok false, n + 3, tr ++ (mountEffects env).take 3)
            | .ok _ =>
              match execStep (ora (n + 3)) with
              | .error _ => (.ok false, n + 4, tr ++ (mountEffects env).take 4)
              | .ok _ =>
                match execStep (ora (n + 4)) with
                | .error _ => (.ok false, n + 5, tr ++ (mountEffects env).take 5)
                | .ok _ =>
                  match execStep (ora (n + 5)) with
                  | .error _ => (.ok false, n + 6, tr ++ (mountEffects env).take 6)
                  | .ok _ => (.ok true, n + 6, tr ++ mountEffects env) := by
  unfold mountR2Storage
  cases hc : (!truthy env.R2_BUCKET_NAME || !env.MOLTBOT_BUCKET.isSome)
  case true => simp [hc, M.run_pure]
  case false =>
    simp only [hc, Bool.false_eq_true, if_false, tryCatchM, M.run_bind, M.run_pure,
      sandboxExec_run, sandboxMountBucket_run, mountEffects]
    rcases h0 : execStep (ora n) with m0 | r0 <;>
      simp only [h0, List.take, List.append_assoc, List.singleton_append, List.cons_append,
        List.nil_append, M.run_pure]
    rcases h1 : execStep (ora (n + 1)) with m1 | r1 <;>
      simp only [h1, List.take, List.append_assoc, List.singleton_append, List.cons_append,
        List.nil_append, M.run_pure]
    rcases h2 : mountStep (ora (n + 2)) with m2 | r2 <;>
      simp only [h2, List.take, List.append_assoc, List.singleton_append, List.cons_append,
        List.nil_append, M.run_pure]
    rcases h3 : execStep (ora (n + 3)) with m3 | r3 <;>
      simp only [h3, List.take, List.append_assoc, List.singleton_append, List.cons_append,
        List.nil_append, M.run_pure]
    rcases h4 : execStep (ora (n + 4)) with m4 | r4 <;>
      simp only [h4, List.take, List.append_assoc, List.singleton_append, List.cons_append,
        List.nil_append, M.run_pure]
    rcases h5 : execStep (ora (n + 5)) with m5 | r5 <;>
      simp only [h5, List.take, List.append_assoc, List.singleton_append, List.cons_append,
        List.nil_append, M.run_pure]

theorem sleepM_run (ms : Nat) (ora : Oracle) (n : Nat) (tr : List Eff) :
    sleepM ms ora n tr = (.ok (), n, tr ++ [.sleep ms]) := rfl

/-- The launch effect `ensureMoltbotGateway` records when it starts the
gateway process. -/
def launchEffect (env : MoltbotEnv) : Eff :=
  .startProcess gatewayCommand (buildOpenclawEnv env) (some "/root/clawd")

/-- Early-return path: when the first Check observes a running match, the
supervisor stops after the single registry listing. -/
theorem ensureMoltbotGateway_run_early (env : MoltbotEnv) (ora : Oracle) (n : Nat)
    (tr : List Eff) (h : gatewayRunning (firstCheckResult ora n) = true) :
    ensureMoltbotGateway env ora n tr = (.ok (), n + 1, tr ++ [.listProcesses]) := by
  unfold ensureMoltbotGateway
  simp [M.run_bind, M.run_pure, findExistingMoltbotProcess_run, h]

/-- Launch path: when the first Check does not observe a running match, the
supervisor mounts, launches, sleeps, re-checks, and succeeds exactly when
the re-check observes a running match. -/
theorem ensureMoltbotGateway_run_launch (env : MoltbotEnv) (ora : Oracle) (n : Nat)
    (tr trm : List Eff) (b : Bool) (m : Nat)
    (h : gatewayRunning (firstCheckResult ora n) = false)
    (hm : mountR2Storage env ora (n + 1) (tr ++ [.listProcesses]) = (.ok b, m, trm)) :
    ensureMoltbotGateway env ora n tr =
      match startStep (ora m) with
      | .error e => (.error e, m + 1, trm ++ [launchEffect env])
      | .ok _ =>
        if gatewayRunning (firstCheckResult ora (m + 1)) then
          (.ok (), m + 2, trm ++ [launchEffect env, .sleep 2000, .listProcesses])
        else
          (.error "Gateway failed to start", m + 2,
            trm ++ [launchEffect env, .sleep 2000, .listProcesses]) := by
  unfold ensureMoltbotGateway launchEffect
  simp only [M.run_bind, findExistingMoltbotProcess_run, h, tryCatchM, throwM,
    Bool.false_eq_true, if_false, hm, sandboxStartProcess_run, sleepM_run, M.run_pure]
  rcases hs : startStep (ora m) with e | p
  · simp [hs]
  · simp only [hs, findExistingMoltbotProcess_run, M.run_pure, List.append_assoc,
      List.singleton_append, List.cons_append, List.nil_append]
    cases hv : gatewayRunning (firstCheckResult ora (m + 1)) <;>
      simp [hv, throwM, M.run_pure]

/-- Full characterisation of the copy step: two directory creations, the
mirrored copy, then the diagnostic-output interpretation. -/
theorem syncCopyStep_run (nowIso : String) (ora : Oracle) (n : Nat) (tr : List Eff) :
    syncCopyStep nowIso ora n tr =
      match execStep (ora n) with
      | .error e => (.error e, n + 1, tr ++ [.exec mkdirLocalCmd])
      | .ok _ =>
        match execStep (ora (n + 1)) with
        | .error e => (.error e, n + 2, tr ++ [.exec mkdirLocalCmd, .exec mkdirDurableCmd])
        | .ok _ =>
          match execStep (ora (n + 2)) with
          | .error e =>
            (.error e, n + 3,
              tr ++ [.exec mkdirLocalCmd, .exec mkdirDurableCmd, .exec rsyncCmd])
          | .ok res =>
            (.ok (if !res.stderr.isEmpty && !strIncludes res.stderr syncHeader then
                    ⟨false, some "Sync failed", some res.stderr, none⟩
                  else ⟨true, none, none, some nowIso⟩),
              n + 3,
              tr ++ [.exec mkdirLocalCmd, .exec mkdirDurableCmd, .exec rsyncCmd]) := by
  unfold syncCopyStep
  simp only [M.run_bind, M.run_pure, sandboxExec_run]
  rcases h0 : execStep (ora n) with e0 | r0 <;>
    simp only [h0, List.append_assoc, List.singleton_append, List.cons_append,
      List.nil_append, M.run_pure]
  rcases h1 : execStep (ora (n + 1)) with e1 | r1 <;>
    simp only [h1, List.append_assoc, List.singleton_append, List.cons_append,
      List.nil_append, M.run_pure]
  rcases h2 : execStep (ora (n + 2)) with e2 | r2 <;>
    simp only [h2, List.append_assoc, List.singleton_append, List.cons_append,
      List.nil_append, M.run_pure]
  cases hd : (!r2.stderr.isEmpty && !strIncludes r2.stderr syncHeader) <;>
    simp [hd, M.run_pure]

/-- The outer catch of `syncToR2`: a thrown exception becomes a failure
outcome with the message in `details`. -/
def catchWrap (x : Except String SyncOutcome × Nat × List Eff) :
    Except String SyncOutcome × Nat × List Eff :=
  match x with
  | (.ok o, m, t) => (.ok o, m, t)
  | (.error e, m, t) => (.ok ⟨false, some "Sync failed", some e, none⟩, m, t)

def notConfiguredOutcome : SyncOutcome :=
  ⟨false, some "R2 storage is not configured",
    some "Missing R2_BUCKET_NAME environment variable", none⟩

def mountUnavailableOutcome : SyncOutcome :=
  ⟨false, some "R2 storage not mounted", some "Failed to mount R2 bucket", none⟩

/-- Unconfigured sync: the guard fires before any collaborator call. -/
theorem syncToR2_run_notConfigured (env : MoltbotEnv) (now : String) (ora : Oracle)
    (n : Nat) (tr : List Eff) (h : truthy env.R2_BUCKET_NAME = false) :
    syncToR2 env now ora n tr = (.ok notConfiguredOutcome, n, tr) := by
  unfold syncToR2 notConfiguredOutcome
  simp [tryCatchM, M.run_bind, M.run_pure, h]

/-- Configured sync: check the mount table, remount on demand, then run the
copy step under the outer catch. -/
theorem syncToR2_run_configured (env : MoltbotEnv) (now : String) (ora : Oracle)
    (n : Nat) (tr : List Eff) (h : truthy env.R2_BUCKET_NAME = true) :
    syncToR2 env now ora n tr =
      match execStep (ora n) with
      | .error e =>
        (.ok ⟨false, some "Sync failed", some e, none⟩, n + 1, tr ++ [.exec mountCheckCmd])
      | .ok chk =>
        if strIncludes chk.stdout "not mounted" then
          match mountR2Storage env ora (n + 1) (tr ++ [.exec mountCheckCmd]) with
          | (.ok false, m, trm) => (.ok mountUnavailableOutcome, m, trm)
          | (.ok true, m, trm) => catchWrap (syncCopyStep now ora m trm)
          | (.error e, m, trm) =>
            (.ok ⟨false, some "Sync failed", some e, none⟩, m, trm)
        else
          catchWrap (syncCopyStep now ora (n + 1) (tr ++ [.exec mountCheckCmd])) := by
  unfold syncToR2 mountUnavailableOutcome
  simp only [tryCatchM, M.run_bind, M.run_pure, sandboxExec_run, h, Bool.not_true,
    Bool.false_eq_true, if_false]
  rcases h0 : execStep (ora n) with e0 | chk <;>
    simp only [h0, M.run_pure]
  cases hin : strIncludes chk.stdout "not mounted"
  · simp only [hin, Bool.false_eq_true, if_false]
    rcases hc : syncCopyStep now ora (n + 1) (tr ++ [.exec mountCheckCmd]) with ⟨rc, k, trk⟩
    rcases rc with e | o <;> simp [hc, catchWrap, M.run_bind]
  · simp only [hin, if_true]
    rcases hm : mountR2Storage env ora (n + 1) (tr ++ [.exec mountCheckCmd]) with ⟨rm, m, trm⟩
    rcases rm with e | b
    · simp [hm, M.run_bind]
    · cases b
      · simp [hm, M.run_bind, M.run_pure]
      · simp only [hm, M.run_bind, Bool.not_true, Bool.false_eq_true, if_false]
        rcases hc : syncCopyStep now ora m trm with ⟨rc, k, trk⟩
        rcases rc with e | o <;> simp [hc, catchWrap, M.run_bind]

/-! Concrete fixtures used by counterexamples and witnesses. -/

/-- A configuration with nothing set: no credentials, no durable storage. -/
def envNoCfg : MoltbotEnv := ⟨none, none, none, none, none⟩

/-- A configuration with durable storage configured. -/
def envCfg : MoltbotEnv := ⟨none, none, none, some "demo", some "bucket-handle"⟩

/-- A process matching the gateway signature, in running state. -/
def runningProc : Process := ⟨1, some "openclaw run", none, "running"⟩

/-- A registry listing a stopped match before a running match. -/
def psStoppedFirst : List Process :=
  [⟨1, some "openclaw run", none, "stopped"⟩,
   ⟨2, some "openclaw run", none, "running"⟩]

/-- Oracle whose registry lists a stopped match first, then lets the launch
and the verification succeed. -/
def oraStoppedFirst : Oracle := fun k =>
  match k with
  | 0 => .processes psStoppedFirst
  | 1 => .proc ⟨7, some "start", none, "starting"⟩
  | _ => .processes [⟨7, some "openclaw run", none, "running"⟩]

/-- Oracle whose registry always reports the running gateway. -/
def oraRunning : Oracle := fun _ => .processes [runningProc]

/-- Oracle on which every collaborator call throws. -/
def oraAllErr : Oracle := fun _ => .err "registry unavailable"

/-- Claim C1, counterexample: a process-registry state in which SOME process
matches the gateway signature and is running (the second listed), yet
`ensureMoltbotGateway` performs a launch attempt, because the check looks
only at the first matching process. -/
theorem c1_counterexample_second_match_running_still_launches :
    (⟨2, some "openclaw run", none, "running"⟩ : Process) ∈ psStoppedFirst ∧
    findMatch ⟨2, some "openclaw run", none, "running"⟩ = true ∧
    (ensureMoltbotGateway envNoCfg oraStoppedFirst 0 []).1 = .ok () ∧
    launchEffect envNoCfg ∈ (ensureMoltbotGateway envNoCfg oraStoppedFirst 0 []).2.2 := by
  refine ⟨by decide, by decide, by decide, by decide⟩

/-- Claim C1 (amended): whenever the FIRST process matching the gateway
signature in the registry listing has status running, `ensureMoltbotGateway`
returns successfully having performed only that one registry listing — in
particular no mount attempt and no launch attempt. -/
theorem c1_first_match_running_no_mount_no_launch (env : MoltbotEnv) (ora : Oracle)
    (n : Nat) (tr : List Eff) (ps : List Process) (p : Process)
    (h : ora n = .processes ps) (hf : ps.find? findMatch = some p)
    (hr : p.status = "running") :
    ensureMoltbotGateway env ora n tr = (.ok (), n + 1, tr ++ [.listProcesses]) := by
  apply ensureMoltbotGateway_run_early
  simp [firstCheckResult, gatewayRunning, h, hf, hr]

/-- Claim C1 witness: a concrete already-running registry state. -/
theorem c1_witness :
    ensureMoltbotGateway envNoCfg oraRunning 0 [] = (.ok (), 1, [.listProcesses]) := by
  have := c1_first_match_running_no_mount_no_launch envNoCfg oraRunning 0 []
    [runningProc] runningProc rfl (by decide) rfl
  simpa using this

/-- Claim C5: when the durable-volume handle or name is absent,
`mountR2Storage` returns `false` at once, with the call counter and the
effect trace unchanged — no exec, no mountBucket. -/
theorem c5_unconfigured_mount_false_no_effects (env : MoltbotEnv) (ora : Oracle)
    (n : Nat) (tr : List Eff)
    (h : env.MOLTBOT_BUCKET = none ∨ env.R2_BUCKET_NAME = none) :
    mountR2Storage env ora n tr = (.ok false, n, tr) := by
  unfold mountR2Storage
  rcases h with h | h <;> simp [h, truthy, M.run_pure]

/-- Claim C5 witness: the empty configuration. -/
theorem c5_witness : mountR2Storage envNoCfg oraRunning 0 [] = (.ok false, 0, []) :=
  c5_unconfigured_mount_false_no_effects envNoCfg oraRunning 0 [] (Or.inl rfl)

/-- Claim C7: with no durable-volume name configured, `syncToR2` returns the
not-configured failure outcome and performs no collaborator call at all. -/
theorem c7_unconfigured_sync_no_effects (env : MoltbotEnv) (now : String)
    (ora : Oracle) (n : Nat) (tr : List Eff) (h : env.R2_BUCKET_NAME = none) :
    syncToR2 env now ora n tr = (.ok notConfiguredOutcome, n, tr) := by
  apply syncToR2_run_notConfigured
  simp [truthy, h]

/-- Claim C7 witness: the empty configuration. -/
theorem c7_witness :
    syncToR2 envNoCfg "2026-10-11" oraRunning 0 [] = (.ok notConfiguredOutcome, 0, []) :=
  c7_unconfigured_sync_no_effects envNoCfg "2026-10-11" oraRunning 0 [] rfl

/-- Claim C10: `findExistingMoltbotProcess` is total — on every oracle it
returns an `Except.ok` value after exactly one registry listing; when the
listing throws, it returns `none`; and on an oracle whose registry listing
throws, `ensureMoltbotGateway` proceeds to a launch attempt. -/
theorem c10_find_total_registry_outage_launches :
    (∀ ora : Oracle, ∀ n : Nat, ∀ tr : List Eff,
      findExistingMoltbotProcess ora n tr =
        (.ok (firstCheckResult ora n), n + 1, tr ++ [.listProcesses])) ∧
    (∀ ora : Oracle, ∀ n : Nat, ∀ tr : List Eff, ∀ m : String, ora n = .err m →
      findExistingMoltbotProcess ora n tr = (.ok none, n + 1, tr ++ [.listProcesses])) ∧
    launchEffect envNoCfg ∈ (ensureMoltbotGateway envNoCfg oraAllErr 0 []).2.2 := by
  refine ⟨findExistingMoltbotProcess_run, ?_, by decide⟩
  intro ora n tr m h
  rw [findExistingMoltbotProcess_run]
  simp [firstCheckResult, h]

/-- Claim C10 witness: the failing-registry oracle. -/
theorem c10_witness :
    findExistingMoltbotProcess oraAllErr 0 [] = (.ok none, 1, [.listProcesses]) := by
  have := c10_find_total_registry_outage_launches.2.1 oraAllErr 0 [] "registry unavailable" rfl
  simpa using this

theorem any_if_single (b : Bool) (x : String × String) (p : String × String → Bool) :
    (if b = true then [x] else []).any p = (b && p x) := by
  cases b <;> simp

theorem all_if_single (b : Bool) (x : String × String) (p : String × String → Bool) :
    (if b = true then [x] else []).all p = (!b || p x) := by
  cases b <;> simp

/-- Claim C2: the assembled gateway environment always carries the
production-mode flag, the restricted PATH and the home directory; it carries
each provider credential key and the gateway token key exactly when the
corresponding configured value is present and non-empty; and no entry ever
carries an empty value. -/
theorem c2_env_assembly (env : MoltbotEnv) :
    ("NODE_ENV", "production") ∈ buildOpenclawEnv env ∧
    ("PATH", restrictedPath) ∈ buildOpenclawEnv env ∧
    ("HOME", "/root") ∈ buildOpenclawEnv env ∧
    ((buildOpenclawEnv env).any fun kv => kv.1 == "ANTHROPIC_API_KEY")
      = truthy env.ANTHROPIC_API_KEY ∧
    ((buildOpenclawEnv env).any fun kv => kv.1 == "OPENAI_API_KEY")
      = truthy env.OPENAI_API_KEY ∧
    ((buildOpenclawEnv env).any fun kv => kv.1 == "OPENCLAW_GATEWAY_TOKEN")
      = truthy env.MOLTBOT_GATEWAY_TOKEN ∧
    ((buildOpenclawEnv env).all fun kv => !kv.2.isEmpty) = true := by
  obtain ⟨a, o, t, r, b⟩ := env
  refine ⟨?_, ?_, ?_, ?_, ?_, ?_, ?_⟩
  · simp [buildOpenclawEnv]
  · simp [buildOpenclawEnv]
  · simp [buildOpenclawEnv]
  · simp [buildOpenclawEnv, List.any_append, any_if_single]
  · simp [buildOpenclawEnv, List.any_append, any_if_single]
  · simp [buildOpenclawEnv, List.any_append, any_if_single]
  · simp only [buildOpenclawEnv, List.all_append, all_if_single]
    rcases a with _ | sa <;> rcases o with _ | so <;> rcases t with _ | st <;>
      simp [truthy, restrictedPath, Bool.not_not, Bool.or_not_self] <;> decide

/-- Shape of every `mountR2Storage` run: it always returns an `Except.ok`
boolean after `k ≤ 6` collaborator calls, appending exactly the first `k`
of its fixed effect list. -/
theorem mountR2Storage_shape (env : MoltbotEnv) (ora : Oracle) (n : Nat) (tr : List Eff) :
    ∃ b k, k ≤ 6 ∧
      mountR2Storage env ora n tr = (.ok b, n + k, tr ++ (mountEffects env).take k) := by
  rw [mountR2Storage_run]
  split
  · exact ⟨false, 0, by decide, by simp⟩
  · split
    · exact ⟨false, 1, by decide, rfl⟩
    · split
      · exact ⟨false, 2, by decide, rfl⟩
      · split
        · exact ⟨false, 3, by decide, rfl⟩
        · split
          · exact ⟨false, 4, by decide, rfl⟩
          · split
            · exact ⟨false, 5, by decide, rfl⟩
            · split
              · exact ⟨false, 6, by decide, rfl⟩
              · exact ⟨true, 6, by decide, by simp [mountEffects]⟩

/-- The mirrored-copy command never appears among the mount step's effects. -/
theorem rsync_not_in_mountEffects (env : MoltbotEnv) (k : Nat) :
    Eff.exec rsyncCmd ∉ (mountEffects env).take k := by
  intro hmem
  have hfull := List.take_subset k (mountEffects env) hmem
  simp [mountEffects, rsyncCmd] at hfull

/-- Claim C4: `mountR2Storage` never propagates an exception — every run
returns an `Except.ok` boolean — and with storage configured, an exception
thrown by directory creation, permission change or the mount invocation
makes it return `false`. -/
theorem c4_mount_catches_and_returns_false :
    (∀ (env : MoltbotEnv) (ora : Oracle) (n : Nat) (tr : List Eff),
      ∃ b n' tr', mountR2Storage env ora n tr = (.ok b, n', tr')) ∧
    (∀ (env : MoltbotEnv) (ora : Oracle) (n : Nat) (tr : List Eff),
      truthy env.R2_BUCKET_NAME = true → env.MOLTBOT_BUCKET.isSome = true →
      ((∃ m, ora n = .err m) ∨ (∃ m, ora (n + 1) = .err m) ∨ (∃ m, ora (n + 2) = .err m)) →
      ∃ n' tr', mountR2Storage env ora n tr = (.ok false, n', tr')) := by
  constructor
  · intro env ora n tr
    obtain ⟨b, k, _, heq⟩ := mountR2Storage_shape env ora n tr
    exact ⟨b, n + k, _, heq⟩
  · intro env ora n tr h1 h2 hd
    rw [mountR2Storage_run]
    have hc : (!truthy env.R2_BUCKET_NAME || !env.MOLTBOT_BUCKET.isSome) = false := by
      simp [h1, h2]
    simp only [hc, Bool.false_eq_true, if_false]
    rcases h0 : execStep (ora n) with m0 | r0
    · exact ⟨n + 1, tr ++ (mountEffects env).take 1, by simp [h0]⟩
    · rcases he1 : execStep (ora (n + 1)) with m1 | r1
      · exact ⟨n + 2, tr ++ (mountEffects env).take 2, by simp [h0, he1]⟩
      · rcases he2 : mountStep (ora (n + 2)) with m2 | r2
        · exact ⟨n + 3, tr ++ (mountEffects env).take 3, by simp [h0, he1, he2]⟩
        · exfalso
          rcases hd with ⟨m, hm⟩ | ⟨m, hm⟩ | ⟨m, hm⟩
          · rw [hm] at h0; simp [execStep] at h0
          · rw [hm] at he1; simp [execStep] at he1
          · rw [hm] at he2; simp [mountStep] at he2

/-- Claim C4 witness: configured storage, directory creation throws. -/
theorem c4_witness :
    ∃ n' tr', mountR2Storage envCfg oraAllErr 0 [] = (.ok false, n', tr') :=
  c4_mount_catches_and_returns_false.2 envCfg oraAllErr 0 [] (by decide) (by decide)
    (Or.inl ⟨"registry unavailable", rfl⟩)

/-- Claim C8: with storage configured, when the mount-table check reports
the volume absent and the remount attempt returns `false`, `syncToR2`
returns the mount-unavailable failure outcome and the mirrored-copy command
is never executed. -/
theorem c8_mount_unavailable_no_copy (env : MoltbotEnv) (now : String) (ora : Oracle)
    (n : Nat) (tr : List Eff) (co ce : String) (m : Nat) (trm : List Eff)
    (h : truthy env.R2_BUCKET_NAME = true)
    (hchk : ora n = .execOut co ce)
    (hnm : strIncludes co "not mounted" = true)
    (hmount : mountR2Storage env ora (n + 1) (tr ++ [.exec mountCheckCmd])
      = (.ok false, m, trm)) :
    syncToR2 env now ora n tr = (.ok mountUnavailableOutcome, m, trm) ∧
    trm.count (Eff.exec rsyncCmd) = tr.count (Eff.exec rsyncCmd) := by
  constructor
  · rw [syncToR2_run_configured env now ora n tr h]
    have h0 : execStep (ora n) = .ok ⟨co, ce⟩ := by rw [hchk]; rfl
    simp only [h0, hnm, if_true, hmount]
  · obtain ⟨b, k, _, heq⟩ := mountR2Storage_shape env ora (n + 1) (tr ++ [.exec mountCheckCmd])
    rw [hmount] at heq
    have htr : trm = (tr ++ [Eff.exec mountCheckCmd]) ++ (mountEffects env).take k := by
      exact congrArg (fun x => x.2.2) heq
    rw [htr]
    rw [List.count_append, List.count_append]
    have hz1 : List.count (Eff.exec rsyncCmd) [Eff.exec mountCheckCmd] = 0 := by decide
    have hz2 : List.count (Eff.exec rsyncCmd) ((mountEffects env).take k) = 0 :=
      List.count_eq_zero.mpr (rsync_not_in_mountEffects env k)
    omega

/-- Claim C8 witness: checked not mounted, remount skipped for lack of a
bucket handle. -/
theorem c8_witness :
    syncToR2 ⟨none, none, none, some "demo", none⟩ "2026-10-11"
        (fun _ => .execOut "not mounted" "") 0 [] =
      (.ok mountUnavailableOutcome, 1, [.exec mountCheckCmd]) ∧
    List.count (Eff.exec rsyncCmd) [Eff.exec mountCheckCmd] =
      List.count (Eff.exec rsyncCmd) ([] : List Eff) := by
  have := c8_mount_unavailable_no_copy ⟨none, none, none, some "demo", none⟩
    "2026-10-11" (fun _ => .execOut "not mounted" "") 0 [] "not mounted" "" 1
    [.exec mountCheckCmd] (by decide) rfl (by decide) (by decide)
  simpa using this

/-- Mixed rsync diagnostic output: the informational header plus an error. -/
def seMixed : String := "sending incremental file list\nrsync: some error"

/-- Oracle for a sync run whose mount check reports mounted and whose copy
produces mixed diagnostic output. -/
def oraMixedDiag : Oracle := fun k =>
  match k with
  | 0 => .execOut "s3fs on /data/moltbot type fuse" ""
  | 1 => .execOut "" ""
  | 2 => .execOut "" ""
  | _ => .execOut "files" seMixed

/-- Claim C9, counterexample: the copy's diagnostic output is neither empty
nor just the informational header, yet the sync reports success, because the
code only tests whether the output CONTAINS the header. -/
theorem c9_counterexample_mixed_diagnostics_reported_success :
    syncToR2 envCfg "2026-10-11" oraMixedDiag 0 [] =
      (.ok ⟨true, none, none, some "2026-10-11"⟩, 4,
        [.exec mountCheckCmd, .exec mkdirLocalCmd, .exec mkdirDurableCmd, .exec rsyncCmd]) ∧
    seMixed ≠ "" ∧ seMixed ≠ syncHeader := by
  refine ⟨by decide, by decide, by decide⟩

/-- Claim C9 (amended): for every invocation reaching the copy step, the
result is success exactly when the copy's diagnostic output is empty or
contains the informational header; any other diagnostic output yields a
failure outcome carrying that output in `details`. -/
theorem c9_copy_diagnostic_interpretation (now : String) (ora : Oracle) (n : Nat)
    (tr : List Eff) (o1 e1 o2 e2 so se : String)
    (h1 : ora n = .execOut o1 e1) (h2 : ora (n + 1) = .execOut o2 e2)
    (h3 : ora (n + 2) = .execOut so se) :
    syncCopyStep now ora n tr =
      (.ok (if !se.isEmpty && !strIncludes se syncHeader then
              ⟨false, some "Sync failed", some se, none⟩
            else ⟨true, none, none, some now⟩),
        n + 3, tr ++ [.exec mkdirLocalCmd, .exec mkdirDurableCmd, .exec rsyncCmd]) := by
  rw [syncCopyStep_run]
  have e1' : execStep (ora n) = .ok ⟨o1, e1⟩ := by rw [h1]; rfl
  have e2' : execStep (ora (n + 1)) = .ok ⟨o2, e2⟩ := by rw [h2]; rfl
  have e3' : execStep (ora (n + 2)) = .ok ⟨so, se⟩ := by rw [h3]; rfl
  simp only [e1', e2', e3']

/-- Claim C9 witness: a copy whose diagnostic output is a bare rsync error. -/
theorem c9_witness :
    syncCopyStep "2026-10-11" (fun _ => .execOut "" "rsync: error 23") 0 [] =
      (.ok ⟨false, some "Sync failed", some "rsync: error 23", none⟩, 3,
        [.exec mkdirLocalCmd, .exec mkdirDurableCmd, .exec rsyncCmd]) :=
  (c9_copy_diagnostic_interpretation "2026-10-11" (fun _ => .execOut "" "rsync: error 23")
    0 [] "" "rsync: error 23" "" "rsync: error 23" "" "rsync: error 23"
    rfl rfl rfl).trans (by decide)

theorem firstCheckResult_processes (ora : Oracle) (i : Nat) (ps : List Process)
    (h : ora i = .processes ps) :
    firstCheckResult ora i =
      match ps.find? findMatch with
      | some p => some ⟨p.pid, p.status⟩
      | none => none := by
  unfold firstCheckResult
  rw [h]

/-- A positive Check observation decomposes into a registry answer whose
first matching process is running. -/
theorem gatewayRunning_true_elim (ora : Oracle) (i : Nat)
    (h : gatewayRunning (firstCheckResult ora i) = true) :
    ∃ ps p, ora i = .processes ps ∧ ps.find? findMatch = some p ∧
      p.status = "running" := by
  cases ho : ora i
  case processes ps =>
    rw [firstCheckResult_processes ora i ps ho] at h
    cases hf : ps.find? findMatch with
    | none => rw [hf] at h; simp [gatewayRunning] at h
    | some p =>
      rw [hf] at h
      exact ⟨ps, p, rfl, hf, by simpa [gatewayRunning] using h⟩
  all_goals
    unfold firstCheckResult at h
    rw [ho] at h
    simp [gatewayRunning] at h

/-- Claim C3: a successful `ensureMoltbotGateway` run always rests on a
registry observation of a running matching process — at the initial check,
or at the re-check after a recorded launch; and when the launch goes through
but the re-check does not observe a running match, the run fails with the
gateway-start error. -/
theorem c3_success_requires_verified_running :
    (∀ (env : MoltbotEnv) (ora : Oracle) (n : Nat) (tr : List Eff) (n' : Nat)
       (tr' : List Eff),
      ensureMoltbotGateway env ora n tr = (.ok (), n', tr') →
      ∃ i ps p, n ≤ i ∧ ora i = .processes ps ∧ ps.find? findMatch = some p ∧
        p.status = "running" ∧ (i = n ∨ launchEffect env ∈ tr')) ∧
    (∀ (env : MoltbotEnv) (ora : Oracle) (n : Nat) (tr trm : List Eff) (b : Bool)
       (m : Nat) (p : Process),
      gatewayRunning (firstCheckResult ora n) = false →
      mountR2Storage env ora (n + 1) (tr ++ [.listProcesses]) = (.ok b, m, trm) →
      startStep (ora m) = .ok p →
      gatewayRunning (firstCheckResult ora (m + 1)) = false →
      ensureMoltbotGateway env ora n tr =
        (.error "Gateway failed to start", m + 2,
          trm ++ [launchEffect env, .sleep 2000, .listProcesses])) := by
  constructor
  · intro env ora n tr n' tr' hok
    cases hrun : gatewayRunning (firstCheckResult ora n)
    case true =>
      obtain ⟨ps, p, ho, hf, hs⟩ := gatewayRunning_true_elim ora n hrun
      exact ⟨n, ps, p, Nat.le_refl n, ho, hf, hs, Or.inl rfl⟩
    case false =>
      obtain ⟨b, k, hk, hm⟩ := mountR2Storage_shape env ora (n + 1) (tr ++ [.listProcesses])
      rw [ensureMoltbotGateway_run_launch env ora n tr _ b _ hrun hm] at hok
      rcases hsp : startStep (ora (n + 1 + k)) with e | p
      · rw [hsp] at hok
        simp at hok
      · rw [hsp] at hok
        cases hv : gatewayRunning (firstCheckResult ora (n + 1 + k + 1))
        · rw [hv] at hok
          simp at hok
        · rw [hv] at hok
          simp only [if_true] at hok
          obtain ⟨ps, p', ho, hf, hs⟩ := gatewayRunning_true_elim ora (n + 1 + k + 1) hv
          have htr : tr' = ((tr ++ [Eff.listProcesses]) ++ (mountEffects env).take k)
              ++ [launchEffect env, .sleep 2000, .listProcesses] := by
            have := congrArg (fun y => y.2.2) hok
            simpa using this.symm
          refine ⟨n + 1 + k + 1, ps, p', by omega, ho, hf, hs, Or.inr ?_⟩
          rw [htr]
          simp
  · intro env ora n tr trm b m p h hm hsp hv
    rw [ensureMoltbotGateway_run_launch env ora n tr trm b m h hm]
    simp only [hsp, hv, Bool.false_eq_true, if_false]

/-- Oracle for a run with an empty registry whose launch and verification
succeed. -/
def oraLaunchOk : Oracle := fun k =>
  match k with
  | 0 => .processes []
  | 1 => .proc ⟨7, some "start", none, "starting"⟩
  | _ => .processes [runningProc]

/-- Claim C3 witness: a concrete empty-registry run that launches and then
verifies the gateway running. -/
theorem c3_witness :
    ∃ i ps p, 0 ≤ i ∧ oraLaunchOk i = .processes ps ∧
      ps.find? findMatch = some p ∧ p.status = "running" ∧
      (i = 0 ∨ launchEffect envNoCfg ∈
        [Eff.listProcesses, launchEffect envNoCfg, .sleep 2000, .listProcesses]) :=
  c3_success_requires_verified_running.1 envNoCfg oraLaunchOk 0 [] 3
    [Eff.listProcesses, launchEffect envNoCfg, .sleep 2000, .listProcesses] (by decide)

/-- Every `Except.ok` result of the copy step has the mirrored-copy command
in its final trace. -/
theorem syncCopyStep_ok_mem (now : String) (ora : Oracle) (n : Nat) (tr : List Eff)
    (out : SyncOutcome) (n' : Nat) (tr' : List Eff)
    (h : syncCopyStep now ora n tr = (.ok out, n', tr')) :
    Eff.exec rsyncCmd ∈ tr' := by
  rw [syncCopyStep_run] at h
  rcases h0 : execStep (ora n) with e0 | r0 <;> rw [h0] at h
  · simp at h
  rcases h1 : execStep (ora (n + 1)) with e1 | r1 <;> rw [h1] at h
  · simp at h
  rcases h2 : execStep (ora (n + 2)) with e2 | r2 <;> rw [h2] at h
  · simp at h
  · have htr : tr ++ [Eff.exec mkdirLocalCmd, Eff.exec mkdirDurableCmd, Eff.exec rsyncCmd]
        = tr' := by
      have := congrArg (fun y => y.2.2) h
      simpa using this
    rw [← htr]
    simp

/-- A successful outcome passes through the outer catch unchanged. -/
theorem catchWrap_ok_success (x : Except String SyncOutcome × Nat × List Eff)
    (out : SyncOutcome) (n' : Nat) (tr' : List Eff)
    (h : catchWrap x = (.ok out, n', tr')) (hs : out.success = true) :
    x = (.ok out, n', tr') := by
  rcases x with ⟨r, m, t⟩
  rcases r with e | o
  · exfalso
    unfold catchWrap at h
    have hout := congrArg (fun y => y.1) h
    simp at hout
    subst hout
    simp at hs
  · simpa [catchWrap] using h

/-- Claim C6: every successful sync has executed the one-way mirrored-copy
command (which carries the delete-on-destination flag, copying the local
working state directory onto the durable subdirectory), and the mirror
semantics makes the durable file set exactly the local one, so a file
removed locally is absent from the durable copy after the sync. -/
theorem c6_sync_success_is_delete_mirror :
    (∀ (env : MoltbotEnv) (now : String) (ora : Oracle) (n : Nat) (tr : List Eff)
       (out : SyncOutcome) (n' : Nat) (tr' : List Eff),
      syncToR2 env now ora n tr = (.ok out, n', tr') → out.success = true →
      Eff.exec rsyncCmd ∈ tr') ∧
    strIncludes rsyncCmd "--delete" = true ∧
    (∀ loc dur : List (String × String),
      mirrorCopy loc dur = loc ∧
      ∀ f, f ∈ dur → f ∉ loc → f ∉ mirrorCopy loc dur) := by
  refine ⟨?_, by decide, fun loc dur => ⟨rfl, fun f _ hnl => hnl⟩⟩
  intro env now ora n tr out n' tr' hy hs
  cases hcfg : truthy env.R2_BUCKET_NAME
  · rw [syncToR2_run_notConfigured env now ora n tr hcfg] at hy
    have hout := congrArg (fun y => y.1) hy
    simp at hout
    subst hout
    simp [notConfiguredOutcome] at hs
  · rw [syncToR2_run_configured env now ora n tr hcfg] at hy
    split at hy
    · have hout := congrArg (fun y => y.1) hy
      simp at hout
      subst hout
      simp at hs
    · split at hy
      · split at hy
        · have hout := congrArg (fun y => y.1) hy
          simp at hout
          subst hout
          simp [mountUnavailableOutcome] at hs
        · have hxy := catchWrap_ok_success _ out n' tr' hy hs
          exact syncCopyStep_ok_mem now ora _ _ out n' tr' hxy
        · have hout := congrArg (fun y => y.1) hy
          simp at hout
          subst hout
          simp at hs
      · have hxy := catchWrap_ok_success _ out n' tr' hy hs
        exact syncCopyStep_ok_mem now ora (n + 1) (tr ++ [.exec mountCheckCmd]) out n' tr' hxy

/-- Oracle for a fully successful sync on an already-mounted volume. -/
def oraSyncOk : Oracle := fun k =>
  match k with
  | 0 => .execOut "s3fs on /data/moltbot type fuse" ""
  | 1 => .execOut "" ""
  | 2 => .execOut "" ""
  | _ => .execOut "file list" ""

/-- Claim C6 witness: a concrete successful sync whose trace contains the
mirrored-copy command. -/
theorem c6_witness :
    Eff.exec rsyncCmd ∈
      [Eff.exec mountCheckCmd, Eff.exec mkdirLocalCmd, Eff.exec mkdirDurableCmd,
       Eff.exec rsyncCmd] :=
  c6_sync_success_is_delete_mirror.1 envCfg "2026-10-11" oraSyncOk 0 []
    ⟨true, none, none, some "2026-10-11"⟩ 4
    [Eff.exec mountCheckCmd, Eff.exec mkdirLocalCmd, Eff.exec mkdirDurableCmd,
     Eff.exec rsyncCmd] (by decide) rfl
